import Mathlib

-- Verification of the OAuth2/OIDC authorization engine of the lc-sso-auth
-- repository: a shallow embedding of app/core/cache.py, app/core/security.py,
-- app/models/application.py, app/services/oauth_service.py and app/api/oauth.py,
-- followed by theorems about the embedded definitions.

namespace SSOAuth

/-- JSON-like claim values appearing in JWT payloads (strings, integers, null).
Timestamps are modelled as integer epoch values. -/
inductive JVal where
  | str : String → JVal
  | num : Int → JVal
  | null : JVal
deriving DecidableEq, Repr

/-- Python dict update for claim maps: setting a key removes any earlier binding
and appends the new one, so a later update wins on lookup. -/
def dictSet (m : List (String × JVal)) (k : String) (v : JVal) : List (String × JVal) :=
  (m.filter (fun p => !(p.1 == k))) ++ [(k, v)]

/-- Python dict lookup (dict.get): the value bound to a key, if any. -/
def dictGet (m : List (String × JVal)) (k : String) : Option JVal :=
  (m.find? (fun p => p.1 == k)).map Prod.snd

/-- Configuration values read by the token codec (app/core/config.py):
the issuer string and the default access-token lifetime in minutes. -/
structure Settings where
  app_name : String
  jwt_access_token_expire_minutes : Nat
deriving DecidableEq, Repr

/-- A JWT as seen by the codec. A token minted by create_jwt with the configured
private key is signed with its payload; anything else (garbage, wrong key,
unparseable input) is malformed and fails signature verification. -/
inductive JwtInput where
  | signed : List (String × JVal) → JwtInput
  | malformed : String → JwtInput
deriving DecidableEq, Repr

/-- Payload carried by a token (empty for malformed input). -/
def JwtInput.payloadOf : JwtInput → List (String × JVal)
  | .signed p => p
  | .malformed _ => []

/-- An HTTPException raised by the service layer: status code and detail string. -/
structure HttpErr where
  statusCode : Nat
  detail : String
deriving DecidableEq, Repr

/-- Embedding of create_jwt (app/core/security.py lines 26-39): copies the
payload and updates exp = now + lifetime, iat = now, iss = settings.app_name,
then signs with the configured private key. The lifetime argument is in
minutes; None selects the configured default. No jti and no token_type is
added here; token_type arrives only via the caller-supplied payload. -/
def create_jwt (s : Settings) (payload : List (String × JVal)) (exp_min : Option Nat)
    (now : Int) : JwtInput :=
  let e : Nat := exp_min.getD s.jwt_access_token_expire_minutes
  .signed (dictSet (dictSet (dictSet payload "exp" (.num (now + 60 * e)))
    "iat" (.num now)) "iss" (.str s.app_name))

/-- Embedding of decode_jwt (app/core/security.py lines 41-55): verifies the
signature against the public key and lets the library check exp against the
current time; on any JWTError an HTTPException 401 is raised. The detail
string of the 401 is abbreviated to a fixed string here. -/
def decode_jwt (t : JwtInput) (now : Int) : Except HttpErr (List (String × JVal)) :=
  match t with
  | .malformed _ => .error ⟨401, "Invalid token"⟩
  | .signed payload =>
    match dictGet payload "exp" with
    | some (.num e) => if e < now then .error ⟨401, "Invalid token"⟩ else .ok payload
    | some _ => .error ⟨401, "Invalid token"⟩
    | none => .ok payload

/-- Truthiness of an optional string, as Python sees it: None and the empty
string are falsy. -/
def optTruthy : Option String → Bool
  | none => false
  | some s => !(s == "")

/-- Embedding of create_access_token (security.py lines 57-64): payload with
sub, scope and token_type = access_token, default lifetime. -/
def create_access_token (s : Settings) (now : Int) (user_id : String)
    (scope : String) : JwtInput :=
  create_jwt s [("sub", .str user_id), ("scope", .str scope),
    ("token_type", .str "access_token")] none now

/-- User record fields consumed by the engine (app/models/user.py). -/
structure User where
  id : String
  username : String
  email : String
  full_name : Option String
  is_active : Bool
  is_verified : Bool
deriving DecidableEq, Repr

/-- Optional string projected to a JSON value, as user.to_dict does. -/
def optStrVal : Option String → JVal
  | none => .null
  | some s => .str s

/-- Embedding of create_id_token (security.py lines 66-75): payload with sub,
email, name, username and token_type = id_token, default lifetime. -/
def create_id_token (s : Settings) (now : Int) (u : User) : JwtInput :=
  create_jwt s [("sub", .str u.id), ("email", .str u.email),
    ("name", optStrVal u.full_name), ("username", .str u.username),
    ("token_type", .str "id_token")] none now

/-- Data serialized into an auth_code store entry by create_auth_code
(security.py lines 106-119). The created_at timestamp is carried in the source
but never read back; it is elided here. JSON round-tripping through the store
is modelled structurally. -/
structure AuthCodeData where
  user_id : String
  client_id : String
  redirect_uri : String
  scope : String
deriving DecidableEq, Repr

/-- Embedding of CacheManager (app/core/cache.py): the redis-backed key-value
store, restricted to the auth_code namespace the claims are about. The
available flag models reachability of the backing redis: every operation
catches RedisError and, when the store is unreachable, get returns None while
set, setex and delete return False. -/
structure Cache where
  available : Bool
  entries : List (String × AuthCodeData)
deriving DecidableEq, Repr

/-- CacheManager.get (cache.py lines 15-20): value or None; None as well when
redis is unreachable. -/
def Cache.get (c : Cache) (k : String) : Option AuthCodeData :=
  if c.available then (c.entries.find? (fun p => p.1 == k)).map Prod.snd else none

/-- CacheManager.setex (cache.py lines 29-34): stores the value under the key
and reports True; reports False (without raising) when redis is unreachable. -/
def Cache.setex (c : Cache) (k : String) (_ttl : Nat) (v : AuthCodeData) : Bool × Cache :=
  if c.available then
    (true, ⟨true, (c.entries.filter (fun p => !(p.1 == k))) ++ [(k, v)]⟩)
  else (false, c)

/-- CacheManager.delete (cache.py lines 36-41): removes the key, reporting
whether it was present; reports False (without raising) when unreachable. -/
def Cache.delete (c : Cache) (k : String) : Bool × Cache :=
  if c.available then
    (c.entries.any (fun p => p.1 == k), ⟨true, c.entries.filter (fun p => !(p.1 == k))⟩)
  else (false, c)

/-- Embedding of create_auth_code (security.py lines 106-119): stores the code
data under auth_code:code with a 600 second TTL and returns the fresh code
value. The uuid4 code generation is modelled by the freshCode parameter. The
boolean result of setex is discarded, exactly as in the source, so the code is
returned to the caller even when the store write failed. -/
def create_auth_code (c : Cache) (freshCode : String) (user_id : String)
    (client_id : String) (redirect_uri : String) (scope : String) : String × Cache :=
  let d : AuthCodeData := ⟨user_id, client_id, redirect_uri, scope⟩
  let r := c.setex ("auth_code:" ++ freshCode) 600 d
  (freshCode, r.2)

/-- First half of consume_auth_code (security.py line 126): the cache.get read
of the stored code data. -/
def consume_read_step (c : Cache) (code : String) : Option AuthCodeData :=
  c.get ("auth_code:" ++ code)

/-- Second half of consume_auth_code (security.py line 129): the cache.delete
of the code key, performed only after the read observed a value. -/
def consume_delete_step (c : Cache) (code : String) : Cache :=
  (c.delete ("auth_code:" ++ code)).2

/-- Embedding of consume_auth_code (security.py lines 121-134): a falsy code
yields None; otherwise the store is read and, if a value was found, the key is
deleted by a second, separate store call and the data returned. The JSON-decode
failure branch is unreachable in this typed model. -/
def consume_auth_code (c : Cache) (code : String) : Option AuthCodeData × Cache :=
  if code == "" then (none, c)
  else
    match consume_read_step c code with
    | some d => (some d, consume_delete_step c code)
    | none => (none, c)

/-- Registered OAuth client application (app/models/application.py). The
JSON-string list columns are modelled by their parsed values, i.e. by what
the get_redirect_uris, get_allowed_scopes, get_grant_types and
get_response_types accessors return. -/
structure Application where
  name : String
  description : Option String
  client_id : String
  client_secret : String
  redirect_uris : List String
  allowed_scopes : List String
  grant_types : List String
  response_types : List String
  is_active : Bool
  is_confidential : Bool
  require_consent : Bool
  access_token_lifetime : Nat
deriving DecidableEq, Repr

/-- Accumulating scanner behind pySplit: cur holds the reversed characters of
the word being read. -/
def pyWordsAux (cur : List Char) : List Char → List String
  | [] => if cur.isEmpty then [] else [String.mk cur.reverse]
  | ch :: cs =>
    if ch.isWhitespace then
      if cur.isEmpty then pyWordsAux [] cs
      else String.mk cur.reverse :: pyWordsAux [] cs
    else pyWordsAux (ch :: cur) cs

/-- Python str.split with no separator: split on whitespace runs, dropping
empty pieces. -/
def pySplit (s : String) : List String :=
  pyWordsAux [] s.toList

/-- Application.is_scope_allowed (application.py lines 117-121): every token of
the whitespace-split requested scope must appear in the allowed-scope list; a
falsy scope splits to the empty list. -/
def Application.is_scope_allowed (app : Application) (scope : String) : Bool :=
  let requested := if scope == "" then [] else pySplit scope
  requested.all (fun s => app.allowed_scopes.contains s)

/-- Application.is_redirect_uri_allowed (application.py lines 113-115): exact
membership in the redirect URI allow-list. -/
def Application.is_redirect_uri_allowed (app : Application) (redirect_uri : String) : Bool :=
  app.redirect_uris.contains redirect_uri

/-- Application.supports_response_type (application.py lines 127-129). -/
def Application.supports_response_type (app : Application) (response_type : String) : Bool :=
  app.response_types.contains response_type

/-- Read-only environment behind the engine: codec settings, the registered
applications table and the user directory. -/
structure Env where
  settings : Settings
  apps : List Application
  users : List User
deriving Repr

/-- ApplicationService.get_application_by_client_id: SQL lookup by client_id. -/
def get_application_by_client_id (apps : List Application) (cid : String) : Option Application :=
  apps.find? (fun a => a.client_id == cid)

/-- UserService.get_user_by_id: lookup in the user directory. -/
def get_user_by_id (users : List User) (uid : String) : Option User :=
  users.find? (fun u => u.id == uid)

/-- AuthorizeRequest (app/schemas/application.py lines 107-115), restricted to
the fields the service reads; nonce and the PKCE fields are accepted by the
schema but never consumed, and are elided. -/
structure AuthorizeRequest where
  response_type : String
  client_id : String
  redirect_uri : String
  scope : Option String
  state : Option String
deriving DecidableEq, Repr

/-- Outcome of OAuthService.handle_authorization_request: the action dict it
returns, or the HTTPException it raises, as a tagged variant. The consent
branch also carries logo and policy URLs for the template; those display-only
fields are elided. -/
inductive AuthzResult where
  | httpError (statusCode : Nat) (detail : String)
  | loginRequired (login_url : String) (client_name : String)
  | consentRequired (client_name : String) (client_description : Option String)
      (requested_scopes : List String)
  | redirect (redirect_uri : String) (code : String) (state : Option String)
deriving DecidableEq, Repr

/-- Embedding of OAuthService.handle_authorization_request (oauth_service.py
lines 21-94). Validation order is the order of the source: client exists and
active, response_type supported, redirect_uri allowed, then scope checked only
when the requested scope is truthy. An unauthenticated user gets
login_required; a consent-requiring client gets consent_required; otherwise a
code is minted with the requested scope or, when it is falsy, the literal
default openid profile email. Code generation is modelled by freshCode. -/
def handle_authorization_request (env : Env) (c : Cache) (freshCode : String)
    (req : AuthorizeRequest) (user_id : Option String) : AuthzResult × Cache :=
  match get_application_by_client_id env.apps req.client_id with
  | none => (.httpError 400 "Invalid client_id", c)
  | some app =>
    if !app.is_active then (.httpError 400 "Invalid client_id", c)
    else if !app.supports_response_type req.response_type then
      (.httpError 400 "Unsupported response_type", c)
    else if !app.is_redirect_uri_allowed req.redirect_uri then
      (.httpError 400 "Invalid redirect_uri", c)
    else if optTruthy req.scope && !app.is_scope_allowed (req.scope.getD "") then
      (.httpError 400 "Invalid scope", c)
    else if !optTruthy user_id then
      (.loginRequired "/login?next=/authorize" app.name, c)
    else
      match get_user_by_id env.users (user_id.getD "") with
      | none => (.httpError 403 "User account is not active", c)
      | some user =>
        if !user.is_active then (.httpError 403 "User account is not active", c)
        else if app.require_consent then
          (.consentRequired app.name app.description
            (if optTruthy req.scope then pySplit (req.scope.getD "") else []), c)
        else
          let sc := if optTruthy req.scope then req.scope.getD "" else "openid profile email"
          let r := create_auth_code c freshCode user.id req.client_id req.redirect_uri sc
          (.redirect req.redirect_uri r.1 req.state, r.2)

/-- Outcome of OAuthService.handle_consent (oauth_service.py lines 96-135):
the redirect dict with either a code or an access_denied error, or the
HTTPException it raises. -/
inductive ConsentResult where
  | httpError (statusCode : Nat) (detail : String)
  | redirectDenied (redirect_uri : String) (error : String) (error_description : String)
      (state : Option String)
  | redirectCode (redirect_uri : String) (code : String) (state : Option String)
deriving DecidableEq, Repr

/-- Embedding of OAuthService.handle_consent (oauth_service.py lines 96-135):
denial redirects with access_denied; otherwise client and user are
re-validated and a code is minted with exactly the posted scope. -/
def handle_consent (env : Env) (c : Cache) (freshCode : String) (client_id : String)
    (scope : String) (user_id : String) (consent : Bool) (redirect_uri : String)
    (state : Option String) : ConsentResult × Cache :=
  if !consent then
    (.redirectDenied redirect_uri "access_denied" "User denied the request" state, c)
  else
    match get_application_by_client_id env.apps client_id with
    | none => (.httpError 400 "Invalid client_id", c)
    | some app =>
      if !app.is_active then (.httpError 400 "Invalid client_id", c)
      else
        match get_user_by_id env.users user_id with
        | none => (.httpError 403 "User account is not active", c)
        | some user =>
          if !user.is_active then (.httpError 403 "User account is not active", c)
          else
            let r := create_auth_code c freshCode user.id client_id redirect_uri scope
            (.redirectCode redirect_uri r.1 state, r.2)

/-- TokenRequest (app/schemas/application.py lines 117-125), restricted to the
fields the service reads; code_verifier is accepted but never consumed. The
refresh_token form field carries a JWT and is modelled structurally. -/
structure TokenRequest where
  grant_type : String
  code : Option String
  redirect_uri : Option String
  client_id : String
  client_secret : Option String
  refresh_token : Option JwtInput
  scope : Option String
deriving DecidableEq, Repr

/-- TokenResponse (app/schemas/application.py lines 127-133). -/
structure TokenResponse where
  access_token : JwtInput
  token_type : String
  expires_in : Nat
  refresh_token : Option JwtInput
  id_token : Option JwtInput
  scope : Option String
deriving DecidableEq, Repr

/-- Character-list match at the head: the first list read off the front of the
second. -/
def hasLead : List Char → List Char → Bool
  | [], _ => true
  | _ :: _, [] => false
  | a :: as, b :: bs => a == b && hasLead as bs

/-- Character-list occurrence anywhere inside the second list. -/
def hasSub (n : List Char) : List Char → Bool
  | [] => n.isEmpty
  | b :: bs => hasLead n (b :: bs) || hasSub n bs

/-- Python substring membership test, needle in hay, used by the grant
handlers on scope strings. -/
def strContains (needle hay : String) : Bool :=
  hasSub needle.toList hay.toList

/-- ApplicationService.validate_client_credentials (application_service.py
lines 197-207): client must exist and be active; a confidential client must
present exactly its stored secret (a missing secret never matches). -/
def validate_client_credentials (apps : List Application) (client_id : String)
    (client_secret : Option String) : Option Application :=
  match get_application_by_client_id apps client_id with
  | none => none
  | some app =>
    if !app.is_active then none
    else if app.is_confidential && !(client_secret == some app.client_secret) then none
    else some app

/-- Embedding of OAuthService._handle_authorization_code_grant
(oauth_service.py lines 164-222): consume the code (read then delete), check
the stored client_id against the requesting client, check the stored
redirect_uri when the request supplies one, look up the user, then mint an
access token with the stored scope, an ID token when openid occurs in the
scope string and a refresh token when offline_access occurs in it. No store
write happens on this path; the only store mutation is the consume delete. -/
def handle_authorization_code_grant (env : Env) (now : Int) (c : Cache)
    (req : TokenRequest) (app : Application) : Except HttpErr TokenResponse × Cache :=
  if !optTruthy req.code then (.error ⟨400, "Missing authorization code"⟩, c)
  else
    let r := consume_auth_code c (req.code.getD "")
    match r.1 with
    | none => (.error ⟨400, "Invalid or expired authorization code"⟩, r.2)
    | some cd =>
      if !(cd.client_id == req.client_id) then (.error ⟨400, "Client ID mismatch"⟩, r.2)
      else if optTruthy req.redirect_uri && !(cd.redirect_uri == req.redirect_uri.getD "") then
        (.error ⟨400, "Redirect URI mismatch"⟩, r.2)
      else
        match get_user_by_id env.users cd.user_id with
        | none => (.error ⟨403, "User account is not active"⟩, r.2)
        | some user =>
          if !user.is_active then (.error ⟨403, "User account is not active"⟩, r.2)
          else
            let scope := cd.scope
            let access := create_access_token env.settings now user.id scope
            let idTok := if strContains "openid" scope
              then some (create_id_token env.settings now user) else none
            let refresh := if strContains "offline_access" scope
              then some (create_access_token env.settings now user.id "refresh_token")
              else none
            (.ok ⟨access, "Bearer", app.access_token_lifetime, refresh, idTok, some scope⟩, r.2)

/-- Body of the try block of OAuthService._handle_refresh_token_grant
(oauth_service.py lines 232-271): decode the presented token, require its
scope claim to equal refresh_token and a truthy string sub, look up the user
and mint a fresh access token (plus ID token when openid occurs in the scope
string). The Secret Store is never consulted. A non-string sub is folded into
the rejection path, which is observationally identical because the enclosing
except-Exception handler collapses every failure to the same 400. -/
def refresh_grant_inner (env : Env) (now : Int) (req : TokenRequest)
    (app : Application) (tok : JwtInput) : Except HttpErr TokenResponse :=
  match decode_jwt tok now with
  | .error e => .error e
  | .ok payload =>
    if !(dictGet payload "scope" == some (JVal.str "refresh_token")) then
      .error ⟨400, "Invalid refresh token"⟩
    else
      match dictGet payload "sub" with
      | some (JVal.str user_id) =>
        if user_id == "" then .error ⟨400, "Invalid refresh token"⟩
        else
          match get_user_by_id env.users user_id with
          | none => .error ⟨403, "User account is not active"⟩
          | some user =>
            if !user.is_active then .error ⟨403, "User account is not active"⟩
            else
              let scope := if optTruthy req.scope then req.scope.getD ""
                else "openid profile email"
              let access := create_access_token env.settings now user_id scope
              let idTok := if strContains "openid" scope
                then some (create_id_token env.settings now user) else none
              .ok ⟨access, "Bearer", app.access_token_lifetime, none, idTok, some scope⟩
      | _ => .error ⟨400, "Invalid refresh token"⟩

/-- Embedding of OAuthService._handle_refresh_token_grant (oauth_service.py
lines 224-277): a missing refresh token is a 400; every failure inside the try
block, of whatever status, is collapsed by the except-Exception handler to
400 Invalid refresh token. The store is passed through untouched: the handler
performs no cache operation at all. -/
def handle_refresh_token_grant (env : Env) (now : Int) (c : Cache)
    (req : TokenRequest) (app : Application) : Except HttpErr TokenResponse × Cache :=
  match req.refresh_token with
  | none => (.error ⟨400, "Missing refresh token"⟩, c)
  | some tok =>
    match refresh_grant_inner env now req app tok with
    | .ok resp => (.ok resp, c)
    | .error _ => (.error ⟨400, "Invalid refresh token"⟩, c)

/-- Embedding of OAuthService._handle_client_credentials_grant
(oauth_service.py lines 279-290). -/
def handle_client_credentials_grant (env : Env) (now : Int) (c : Cache)
    (req : TokenRequest) (app : Application) : Except HttpErr TokenResponse × Cache :=
  let scope := if optTruthy req.scope then req.scope.getD "" else "client"
  (.ok ⟨create_access_token env.settings now app.client_id scope, "Bearer",
    app.access_token_lifetime, none, none, some scope⟩, c)

/-- Embedding of OAuthService.handle_token_request (oauth_service.py lines
137-162): validate client credentials (401 on failure), then dispatch on
grant_type. -/
def handle_token_request (env : Env) (now : Int) (c : Cache)
    (req : TokenRequest) : Except HttpErr TokenResponse × Cache :=
  match validate_client_credentials env.apps req.client_id req.client_secret with
  | none => (.error ⟨401, "Invalid client credentials"⟩, c)
  | some app =>
    if req.grant_type == "authorization_code" then
      handle_authorization_code_grant env now c req app
    else if req.grant_type == "refresh_token" then
      handle_refresh_token_grant env now c req app
    else if req.grant_type == "client_credentials" then
      handle_client_credentials_grant env now c req app
    else (.error ⟨400, "Unsupported grant_type"⟩, c)

/-- HTTP response produced by the authorize endpoint (app/api/oauth.py lines
22-105): a 302 redirect to a client URL built from a base and urlencoded query
parameters, a 302 redirect to the login page, or the rendered consent page.
Query strings are modelled as ordered key-value lists; percent-encoding is
elided. -/
inductive HttpOutcome where
  | redirectClient (base : String) (params : List (String × String))
  | redirectLogin (login_url : String)
  | consentPage (client_id : String) (scope : String) (redirect_uri : String)
      (state : Option String)
deriving DecidableEq, Repr

/-- Query fragment contributed by state under the truthiness guard the
endpoint uses: present only when state is a non-empty string. -/
def stateParams (state : Option String) : List (String × String) :=
  match state with
  | some s => if s == "" then [] else [("state", s)]
  | none => []

/-- Embedding of the authorize endpoint (app/api/oauth.py lines 22-105). An
omitted scope query parameter defaults to openid profile email. The service
result is mapped to a response; any HTTPException raised by the service,
including the invalid redirect_uri one, is caught and turned into a 302 to the
request-supplied redirect_uri carrying error=server_error plus the detail,
with state appended when truthy. Rate limiting and the template fields beyond
those modelled are elided. -/
def authorize (env : Env) (c : Cache) (freshCode : String) (requestUrl : String)
    (response_type : String) (client_id : String) (redirect_uri : String)
    (scope : Option String) (state : Option String) (user_id : Option String) :
    HttpOutcome × Cache :=
  let scopeVal := scope.getD "openid profile email"
  let req : AuthorizeRequest := ⟨response_type, client_id, redirect_uri, some scopeVal, state⟩
  let r := handle_authorization_request env c freshCode req user_id
  match r.1 with
  | .httpError _ detail =>
    (.redirectClient redirect_uri
      ([("error", "server_error"), ("error_description", detail)] ++ stateParams state), r.2)
  | .loginRequired _ _ => (.redirectLogin ("/auth/login?next=" ++ requestUrl), r.2)
  | .consentRequired _ _ _ => (.consentPage client_id scopeVal redirect_uri state, r.2)
  | .redirect ruri code st =>
    (.redirectClient ruri ([("code", code)] ++ stateParams st), r.2)

/-- HTTP response produced by the consent endpoint (app/api/oauth.py lines
107-160): a 302 redirect to the client, or the 401 raised before the try block
when no user is authenticated (its structured detail is abbreviated). -/
inductive ConsentOutcome where
  | httpError (statusCode : Nat) (detail : String)
  | redirectClient (base : String) (params : List (String × String))
deriving DecidableEq, Repr

/-- Embedding of the consent endpoint (app/api/oauth.py lines 107-160): an
unauthenticated user is a 401; otherwise handle_consent runs and its result
dict is mapped to a redirect whose parameters are code, or error and
error_description, followed by state when truthy; an HTTPException from the
service is caught and redirected to the posted redirect_uri as
error=server_error with state appended when truthy. -/
def consent_endpoint (env : Env) (c : Cache) (freshCode : String) (client_id : String)
    (scope : String) (redirect_uri : String) (state : Option String) (consentVal : Bool)
    (user_id : Option String) : ConsentOutcome × Cache :=
  if !optTruthy user_id then (.httpError 401 "Authentication required", c)
  else
    let r := handle_consent env c freshCode client_id scope (user_id.getD "")
      consentVal redirect_uri state
    match r.1 with
    | .httpError _ detail =>
      (.redirectClient redirect_uri
        ([("error", "server_error"), ("error_description", detail)] ++ stateParams state), r.2)
    | .redirectDenied ruri err desc st =>
      (.redirectClient ruri
        ([("error", err), ("error_description", desc)] ++ stateParams st), r.2)
    | .redirectCode ruri code st =>
      (.redirectClient ruri ([("code", code)] ++ stateParams st), r.2)

/-- Lookup of a query parameter in an ordered parameter list. -/
def lookupParam (ps : List (String × String)) (k : String) : Option String :=
  (ps.find? (fun p => p.1 == k)).map Prod.snd

/-- Boolean success test for Except values. -/
def exceptIsOk : Except HttpErr TokenResponse → Bool
  | .ok _ => true
  | .error _ => false

-- Concrete fixtures used by counterexamples and witnesses.

/-- Settings matching the defaults in app/core/config.py. -/
def demoSettings : Settings := ⟨"SSO Service", 30⟩

/-- A registered confidential client without consent requirement, allowing one
redirect URI and the scopes openid and profile. -/
def demoApp : Application :=
  ⟨"Demo App", some "demo application", "c1", "secret1", ["https://app.example/cb"],
    ["openid", "profile"], ["authorization_code", "refresh_token"], ["code"],
    true, true, false, 3600⟩

/-- An active, verified user. -/
def demoUser : User := ⟨"u1", "alice", "alice@example.com", some "Alice Doe", true, true⟩

/-- Environment holding the demo client and user. -/
def demoEnv : Env := ⟨demoSettings, [demoApp], [demoUser]⟩

/-- An empty, reachable secret store. -/
def emptyCache : Cache := ⟨true, []⟩

/-- An unreachable secret store: every redis call raises RedisError. -/
def downCache : Cache := ⟨false, []⟩

-- Helper lemmas shared by the claim theorems.

/-- Searching a filtered association list for the very key the filter removed
finds nothing. -/
theorem find?_filter_self (l : List (String × AuthCodeData)) (k : String) :
    (l.filter (fun p => !(p.1 == k))).find? (fun p => p.1 == k) = none := by
  apply List.find?_eq_none.mpr
  intro x hx
  have hmem := List.of_mem_filter hx
  simpa using hmem

/-- Reading a key from a reachable store right after deleting it yields
nothing. -/
theorem get_delete_self (c : Cache) (k : String) (h : c.available = true) :
    ((c.delete k).2).get k = none := by
  simp [Cache.delete, Cache.get, h, find?_filter_self]

/-- When the store holds the code, consume_auth_code returns its data and the
store with the code deleted. -/
theorem consume_auth_code_found (c : Cache) (code : String) (cd : AuthCodeData)
    (hne : code ≠ "") (h : c.get ("auth_code:" ++ code) = some cd) :
    consume_auth_code c code = (some cd, (c.delete ("auth_code:" ++ code)).2) := by
  simp [consume_auth_code, consume_read_step, consume_delete_step, hne, h]

/-- When the store does not hold the code, consume_auth_code returns nothing
and leaves the store untouched. -/
theorem consume_auth_code_missing (c : Cache) (code : String)
    (h : c.get ("auth_code:" ++ code) = none) :
    consume_auth_code c code = (none, c) := by
  by_cases hc : code = ""
  · simp [consume_auth_code, hc]
  · simp [consume_auth_code, consume_read_step, hc, h]

/-- Characterization of the happy path of the authorization_code grant: with
the code stored, the client matching, the redirect check passing and an active
user, the grant returns the token response built from the stored scope and the
store with the code deleted. -/
theorem authcode_grant_ok (env : Env) (now : Int) (c : Cache) (req : TokenRequest)
    (app : Application) (code : String) (cd : AuthCodeData) (user : User)
    (hcode : req.code = some code) (hne : code ≠ "")
    (hget : c.get ("auth_code:" ++ code) = some cd)
    (hclient : cd.client_id = req.client_id)
    (hredir : (optTruthy req.redirect_uri
      && !(cd.redirect_uri == req.redirect_uri.getD "")) = false)
    (huser : get_user_by_id env.users cd.user_id = some user)
    (hactive : user.is_active = true) :
    handle_authorization_code_grant env now c req app =
      (.ok ⟨create_access_token env.settings now user.id cd.scope, "Bearer",
        app.access_token_lifetime,
        (if strContains "offline_access" cd.scope
          then some (create_access_token env.settings now user.id "refresh_token")
          else none),
        (if strContains "openid" cd.scope
          then some (create_id_token env.settings now user) else none),
        some cd.scope⟩,
       (c.delete ("auth_code:" ++ code)).2) := by
  have hcons := consume_auth_code_found c code cd hne hget
  have hredir2 : optTruthy req.redirect_uri = true → cd.redirect_uri = req.redirect_uri.getD "" := by
    intro ht
    rw [ht, Bool.true_and] at hredir
    simpa using hredir
  simp [handle_authorization_code_grant, optTruthy, hcode, hne, hcons, hclient,
    huser, hactive]
  intro hsome
  exact hredir2 hsome

/-- With valid client credentials, handle_token_request on the
authorization_code grant reduces to the dedicated handler. -/
theorem token_request_dispatch_authcode (env : Env) (now : Int) (c : Cache)
    (req : TokenRequest) (app : Application)
    (happ : validate_client_credentials env.apps req.client_id req.client_secret = some app)
    (hg : req.grant_type = "authorization_code") :
    handle_token_request env now c req = handle_authorization_code_grant env now c req app := by
  simp [handle_token_request, happ, hg]

/-- When the store does not hold the requested code, the authorization_code
grant fails with the invalid-code error and the store is unchanged. -/
theorem authcode_grant_missing (env : Env) (now : Int) (c : Cache) (req : TokenRequest)
    (app : Application) (code : String)
    (hcode : req.code = some code) (hne : code ≠ "")
    (hget : c.get ("auth_code:" ++ code) = none) :
    handle_authorization_code_grant env now c req app =
      (.error ⟨400, "Invalid or expired authorization code"⟩, c) := by
  have hcons := consume_auth_code_missing c code hget
  simp [handle_authorization_code_grant, optTruthy, hcode, hne, hcons]

-- Claim theorems.

/-- C1: for an authorization code present in the Secret Store, a first
authorization_code token request with valid client credentials, matching
client_id, passing redirect check and an active user succeeds and returns a
token set, with the code deleted from the store; an identical second,
sequential redemption then fails with the 400 invalid-code error (the
invalid_grant outcome of the spec), because the first redemption removed the
code. -/
theorem auth_code_one_time_use (env : Env) (now now2 : Int) (c : Cache)
    (req : TokenRequest) (app : Application) (code : String) (cd : AuthCodeData)
    (user : User)
    (happ : validate_client_credentials env.apps req.client_id req.client_secret = some app)
    (hg : req.grant_type = "authorization_code")
    (hcode : req.code = some code) (hne : code ≠ "")
    (havail : c.available = true)
    (hget : c.get ("auth_code:" ++ code) = some cd)
    (hclient : cd.client_id = req.client_id)
    (hredir : (optTruthy req.redirect_uri
      && !(cd.redirect_uri == req.redirect_uri.getD "")) = false)
    (huser : get_user_by_id env.users cd.user_id = some user)
    (hactive : user.is_active = true) :
    (∃ resp : TokenResponse,
      handle_token_request env now c req =
        (.ok resp, (c.delete ("auth_code:" ++ code)).2)) ∧
    (handle_token_request env now2 ((c.delete ("auth_code:" ++ code)).2) req).1 =
      .error ⟨400, "Invalid or expired authorization code"⟩ := by
  constructor
  · rw [token_request_dispatch_authcode env now c req app happ hg,
      authcode_grant_ok env now c req app code cd user hcode hne hget hclient hredir
        huser hactive]
    exact ⟨_, rfl⟩
  · rw [token_request_dispatch_authcode env now2 _ req app happ hg,
      authcode_grant_missing env now2 _ req app code hcode hne
        (get_delete_self c ("auth_code:" ++ code) havail)]

/-- Witness for C1 at a concrete store, request and environment. -/
theorem auth_code_one_time_use_witness :
    (∃ resp : TokenResponse,
      handle_token_request demoEnv 1000
        ⟨true, [("auth_code:code1", ⟨"u1", "c1", "https://app.example/cb", "openid profile"⟩)]⟩
        ⟨"authorization_code", some "code1", some "https://app.example/cb", "c1",
          some "secret1", none, none⟩ =
        (.ok resp,
          ((⟨true, [("auth_code:code1",
            ⟨"u1", "c1", "https://app.example/cb", "openid profile"⟩)]⟩ : Cache).delete
              ("auth_code:" ++ "code1")).2)) ∧
    (handle_token_request demoEnv 2000
      ((⟨true, [("auth_code:code1",
        ⟨"u1", "c1", "https://app.example/cb", "openid profile"⟩)]⟩ : Cache).delete
          ("auth_code:" ++ "code1")).2
      ⟨"authorization_code", some "code1", some "https://app.example/cb", "c1",
        some "secret1", none, none⟩).1 =
      .error ⟨400, "Invalid or expired authorization code"⟩ :=
  auth_code_one_time_use demoEnv 1000 2000 _ _ demoApp "code1"
    ⟨"u1", "c1", "https://app.example/cb", "openid profile"⟩ demoUser
    (by decide) rfl rfl (by decide) rfl (by decide) rfl (by decide) (by decide) rfl

/-- C2: the authorize endpoint catches the Invalid redirect_uri HTTPException
raised by the service and responds with a 302 redirect to the request-supplied
redirect_uri itself: for a client allowing only https://app.example/cb, a
request naming https://evil.example/cb is answered by a redirect to
https://evil.example/cb carrying error=server_error, not by a direct error to
the user-agent. This evaluates the code at the failing input of the claim. -/
theorem authorize_redirects_error_to_untrusted_uri :
    authorize demoEnv emptyCache "fresh1" "https://sso.example/authorize" "code" "c1"
      "https://evil.example/cb" (some "openid") (some "xyz123") (some "u1") =
      (.redirectClient "https://evil.example/cb"
        [("error", "server_error"), ("error_description", "Invalid redirect_uri"),
          ("state", "xyz123")], emptyCache) := by
  decide

/-- Interleaved execution of two concurrent consume_auth_code calls A and B on
the same store and code, under the schedule: A performs its read step, B
performs its read step, A performs its delete step, B performs its delete
step. The read step is a pure cache.get, so it leaves the store unchanged;
each racer returns the data its own read observed, exactly as
consume_auth_code does after its read. -/
def consume_race (c0 : Cache) (code : String) :
    Option AuthCodeData × Option AuthCodeData × Cache :=
  let rA := consume_read_step c0 code
  let rB := consume_read_step c0 code
  let c1 := match rA with
    | some _ => consume_delete_step c0 code
    | none => c0
  let c2 := match rB with
    | some _ => consume_delete_step c1 code
    | none => c1
  (rA, rB, c2)

/-- C3: consume_auth_code is a separate cache.get followed by a separate
cache.delete, not an atomic delete-and-fetch: under the interleaving in which
both racers read before either deletes, both redemptions of the same stored
code observe the data and succeed, while the sequential composition of the
same two calls yields exactly one success. This exhibits the race the claim
says cannot happen. -/
theorem consume_auth_code_race_double_success :
    (consume_race ⟨true, [("auth_code:racecode",
        ⟨"u1", "c1", "https://app.example/cb", "openid"⟩)]⟩ "racecode").1 =
      some ⟨"u1", "c1", "https://app.example/cb", "openid"⟩ ∧
    (consume_race ⟨true, [("auth_code:racecode",
        ⟨"u1", "c1", "https://app.example/cb", "openid"⟩)]⟩ "racecode").2.1 =
      some ⟨"u1", "c1", "https://app.example/cb", "openid"⟩ ∧
    (consume_auth_code ⟨true, [("auth_code:racecode",
        ⟨"u1", "c1", "https://app.example/cb", "openid"⟩)]⟩ "racecode").1 =
      some ⟨"u1", "c1", "https://app.example/cb", "openid"⟩ ∧
    (consume_auth_code
      (consume_auth_code ⟨true, [("auth_code:racecode",
        ⟨"u1", "c1", "https://app.example/cb", "openid"⟩)]⟩ "racecode").2 "racecode").1 =
      none := by
  decide

/-- C6: with the backing store unreachable, every read behaves as not found,
but writes fail soft: setex returns False without raising, create_auth_code
discards that False and still returns the fresh code, and the authorization
flow silently proceeds, issuing a redirect carrying a code that was never
persisted. -/
theorem store_down_flow_proceeds :
    (∀ k, downCache.get k = none) ∧
    (∀ k ttl v, (downCache.setex k ttl v).1 = false) ∧
    (create_auth_code downCache "fresh1" "u1" "c1" "https://app.example/cb" "openid").1 =
      "fresh1" ∧
    handle_authorization_request demoEnv downCache "fresh1"
      ⟨"code", "c1", "https://app.example/cb", some "openid", some "xyz"⟩ (some "u1") =
      (.redirect "https://app.example/cb" "fresh1" (some "xyz"), downCache) := by
  refine ⟨fun k => ?_, fun k ttl v => ?_, ?_, ?_⟩
  · simp [Cache.get, downCache]
  · simp [Cache.setex, downCache]
  · decide
  · decide

-- Dictionary lemmas for the token codec.

/-- Searching a filtered association list for the removed key finds nothing
(claim-value version). -/
theorem find?_filter_self_jval (l : List (String × JVal)) (k : String) :
    (l.filter (fun p => !(p.1 == k))).find? (fun p => p.1 == k) = none := by
  apply List.find?_eq_none.mpr
  intro x hx
  have hmem := List.of_mem_filter hx
  simpa using hmem

/-- Looking up the key just set returns the new value. -/
theorem dictGet_set_self (m : List (String × JVal)) (k : String) (v : JVal) :
    dictGet (dictSet m k v) k = some v := by
  simp [dictGet, dictSet, List.find?_append, find?_filter_self_jval]

/-- Filtering one key out of an association list does not change the search
for a different key. -/
theorem find?_filter_other (l : List (String × JVal)) (k k2 : String) (h : k2 ≠ k) :
    (l.filter (fun p => !(p.1 == k))).find? (fun p => p.1 == k2) =
      l.find? (fun p => p.1 == k2) := by
  induction l with
  | nil => rfl
  | cons hd tl ih =>
    by_cases hh : hd.1 = k2
    · have hk : (hd.1 == k) = false := by
        subst hh
        simpa using h
      simp [List.filter_cons, hk, List.find?_cons, hh, h]
    · by_cases hk : hd.1 = k
      · simp [List.filter_cons, hk, List.find?_cons, hh, ih, Ne.symm h]
      · simp [List.filter_cons, hk, List.find?_cons, hh, ih]

/-- Looking up a different key is unaffected by a set. -/
theorem dictGet_set_ne (m : List (String × JVal)) (k k2 : String) (v : JVal)
    (h : k2 ≠ k) :
    dictGet (dictSet m k v) k2 = dictGet m k2 := by
  simp only [dictGet, dictSet, List.find?_append, find?_filter_other m k k2 h]
  have hlast : List.find? (fun p => p.1 == k2) [(k, v)] = none := by
    simp [List.find?_cons, h.symm]
  rw [hlast]
  cases m.find? (fun p => p.1 == k2) <;> rfl

deriving instance DecidableEq for Except

/-- Claims map of a typical access token request: subject, scope and the
caller-supplied token_type discriminator. -/
def demoClaims : List (String × JVal) :=
  [("sub", .str "u1"), ("scope", .str "openid"), ("token_type", .str "access_token")]

/-- C4 counterexample: verifying a token just issued over the demo claims with
lifetime 60 minutes succeeds, but the decoded claims contain no jti at all:
create_jwt never generates a token identifier, so the round-trip does not
return claims with jti populated as the claim states. -/
theorem jwt_roundtrip_missing_jti :
    decode_jwt (create_jwt demoSettings demoClaims (some 60) 1000) 1000 =
      .ok ((create_jwt demoSettings demoClaims (some 60) 1000).payloadOf) ∧
    dictGet ((create_jwt demoSettings demoClaims (some 60) 1000).payloadOf) "jti" =
      none := by
  decide

/-- C4 amended: the round-trip verify-of-issue succeeds and returns the input
claims with exp, iat and iss populated by the codec; every other key keeps the
value the caller supplied, and in particular no jti is added (and token_type
is present only when the caller put it in the input claims). -/
theorem jwt_roundtrip_amended (s : Settings) (m : List (String × JVal)) (now : Int)
    (e : Nat) :
    decode_jwt (create_jwt s m (some e) now) now =
      .ok ((create_jwt s m (some e) now).payloadOf) ∧
    dictGet ((create_jwt s m (some e) now).payloadOf) "exp" = some (.num (now + 60 * e)) ∧
    dictGet ((create_jwt s m (some e) now).payloadOf) "iat" = some (.num now) ∧
    dictGet ((create_jwt s m (some e) now).payloadOf) "iss" = some (.str s.app_name) ∧
    (∀ k, k ≠ "exp" → k ≠ "iat" → k ≠ "iss" →
      dictGet ((create_jwt s m (some e) now).payloadOf) k = dictGet m k) ∧
    (dictGet m "jti" = none →
      dictGet ((create_jwt s m (some e) now).payloadOf) "jti" = none) := by
  have hexp : dictGet ((create_jwt s m (some e) now).payloadOf) "exp" =
      some (.num (now + 60 * e)) := by
    simp only [create_jwt, JwtInput.payloadOf]
    rw [dictGet_set_ne _ _ _ _ (by decide), dictGet_set_ne _ _ _ _ (by decide),
      dictGet_set_self]
    rfl
  have hiat : dictGet ((create_jwt s m (some e) now).payloadOf) "iat" =
      some (.num now) := by
    simp only [create_jwt, JwtInput.payloadOf]
    rw [dictGet_set_ne _ _ _ _ (by decide), dictGet_set_self]
  have hiss : dictGet ((create_jwt s m (some e) now).payloadOf) "iss" =
      some (.str s.app_name) := by
    simp only [create_jwt, JwtInput.payloadOf]
    rw [dictGet_set_self]
  have hother : ∀ k, k ≠ "exp" → k ≠ "iat" → k ≠ "iss" →
      dictGet ((create_jwt s m (some e) now).payloadOf) k = dictGet m k := by
    intro k h1 h2 h3
    simp only [create_jwt, JwtInput.payloadOf]
    rw [dictGet_set_ne _ _ _ _ h3, dictGet_set_ne _ _ _ _ h2, dictGet_set_ne _ _ _ _ h1]
  refine ⟨?_, hexp, hiat, hiss, hother, ?_⟩
  · have hpay : create_jwt s m (some e) now =
        .signed ((create_jwt s m (some e) now).payloadOf) := by
      simp [create_jwt, JwtInput.payloadOf]
    conv_lhs => rw [hpay]
    simp only [decode_jwt]
    rw [hexp]
    have hlt : ¬(now + 60 * (e : Int) < now) := by omega
    simp [hlt]
  · intro hm
    rw [hother "jti" (by decide) (by decide) (by decide)]
    exact hm

/-- Witness for C4 amended at the demo claims: sub is untouched by the codec
and jti stays absent. -/
theorem jwt_roundtrip_amended_witness :
    (("sub" : String) ≠ "exp" ∧ ("sub" : String) ≠ "iat" ∧ ("sub" : String) ≠ "iss" ∧
      dictGet demoClaims "jti" = none) ∧
    dictGet ((create_jwt demoSettings demoClaims (some 60) 1000).payloadOf) "sub" =
      dictGet demoClaims "sub" ∧
    dictGet ((create_jwt demoSettings demoClaims (some 60) 1000).payloadOf) "jti" =
      none :=
  ⟨⟨by decide, by decide, by decide, by decide⟩,
    (jwt_roundtrip_amended demoSettings demoClaims 1000 60).2.2.2.2.1 "sub"
      (by decide) (by decide) (by decide),
    (jwt_roundtrip_amended demoSettings demoClaims 1000 60).2.2.2.2.2 (by decide)⟩

/-- Refresh token exactly as the authorization_code grant mints it: an access
token whose scope claim is the literal refresh_token. -/
def demoRefreshTok : JwtInput := create_access_token demoSettings 1000 "u1" "refresh_token"

/-- C5 counterexample: a refresh_token grant succeeds against a completely
empty Secret Store (so no matching Refresh Token Record exists, yet no
invalid_grant results), and redeeming a code whose scope includes
offline_access returns a refresh token while leaving the store empty (no
record of the refresh token is created anywhere). -/
theorem refresh_grant_ignores_store :
    exceptIsOk (handle_token_request demoEnv 1500 emptyCache
      ⟨"refresh_token", none, none, "c1", some "secret1", some demoRefreshTok, none⟩).1 =
      true ∧
    (handle_token_request demoEnv 1500 emptyCache
      ⟨"refresh_token", none, none, "c1", some "secret1", some demoRefreshTok, none⟩).2 =
      emptyCache ∧
    (match (handle_token_request demoEnv 1000
        ⟨true, [("auth_code:codeoff",
          ⟨"u1", "c1", "https://app.example/cb", "openid offline_access"⟩)]⟩
        ⟨"authorization_code", some "codeoff", some "https://app.example/cb", "c1",
          some "secret1", none, none⟩).1 with
      | .ok r => r.refresh_token.isSome
      | .error _ => false) = true ∧
    (handle_token_request demoEnv 1000
      ⟨true, [("auth_code:codeoff",
        ⟨"u1", "c1", "https://app.example/cb", "openid offline_access"⟩)]⟩
      ⟨"authorization_code", some "codeoff", some "https://app.example/cb", "c1",
        some "secret1", none, none⟩).2 = emptyCache := by
  decide

/-- Second component of consume_auth_code: the store is either untouched or
has exactly the code key deleted. -/
theorem consume_snd_cases (c : Cache) (code : String) :
    (consume_auth_code c code).2 = c ∨
    (consume_auth_code c code).2 = (c.delete ("auth_code:" ++ code)).2 := by
  unfold consume_auth_code
  cases hq : (code == "") with
  | true => simp
  | false =>
    simp only [Bool.false_eq_true, if_false]
    cases consume_read_step c code <;> simp [consume_delete_step]

/-- Second component of the authorization_code grant: the store is either
untouched or is whatever consume_auth_code left. -/
theorem authcode_grant_snd (env : Env) (now : Int) (c : Cache) (req : TokenRequest)
    (app : Application) :
    (handle_authorization_code_grant env now c req app).2 = c ∨
    (handle_authorization_code_grant env now c req app).2 =
      (consume_auth_code c (req.code.getD "")).2 := by
  cases h1 : optTruthy req.code with
  | false => simp [handle_authorization_code_grant, h1]
  | true =>
    right
    unfold handle_authorization_code_grant
    rw [h1, Bool.not_true, if_neg Bool.false_ne_true]
    dsimp only
    repeat' first | rfl | split

/-- C5 amended: the refresh_token grant of the OAuth token endpoint never
consults the Secret Store: its outcome is identical for any two store states
and it leaves the store exactly as it was, so no revocation check against a
Refresh Token Record happens; and the authorization_code grant never writes a
record for the refresh token it issues: the only store mutation on that path
is the deletion of the consumed code. -/
theorem refresh_grant_no_store_check :
    (∀ (env : Env) (now : Int) (c1 c2 : Cache) (req : TokenRequest) (app : Application),
      (handle_refresh_token_grant env now c1 req app).1 =
        (handle_refresh_token_grant env now c2 req app).1) ∧
    (∀ (env : Env) (now : Int) (c : Cache) (req : TokenRequest) (app : Application),
      (handle_refresh_token_grant env now c req app).2 = c) ∧
    (∀ (env : Env) (now : Int) (c : Cache) (req : TokenRequest) (app : Application),
      (handle_authorization_code_grant env now c req app).2 = c ∨
      (handle_authorization_code_grant env now c req app).2 =
        (c.delete ("auth_code:" ++ req.code.getD "")).2) := by
  refine ⟨?_, ?_, ?_⟩
  · intro env now c1 c2 req app
    cases ht : req.refresh_token with
    | none => simp [handle_refresh_token_grant, ht]
    | some tok =>
      cases h : refresh_grant_inner env now req app tok <;>
        simp [handle_refresh_token_grant, ht, h]
  · intro env now c req app
    cases ht : req.refresh_token with
    | none => simp [handle_refresh_token_grant, ht]
    | some tok =>
      cases h : refresh_grant_inner env now req app tok <;>
        simp [handle_refresh_token_grant, ht, h]
  · intro env now c req app
    rcases authcode_grant_snd env now c req app with h | h
    · exact Or.inl h
    · rcases consume_snd_cases c (req.code.getD "") with h2 | h2
      · exact Or.inl (h.trans h2)
      · exact Or.inr (h.trans h2)

/-- C7: redeeming a stored authorization code with a token request that
supplies a redirect_uri differing by exact string comparison from the one
recorded at issuance fails with a 400 of the invalid_grant class: Redirect URI
mismatch when the client matches, Client ID mismatch otherwise (both are the
invalid_grant outcome of the spec). -/
theorem redirect_uri_binding (env : Env) (now : Int) (c : Cache) (req : TokenRequest)
    (app : Application) (code : String) (cd : AuthCodeData) (r : String)
    (happ : validate_client_credentials env.apps req.client_id req.client_secret = some app)
    (hg : req.grant_type = "authorization_code")
    (hcode : req.code = some code) (hne : code ≠ "")
    (hget : c.get ("auth_code:" ++ code) = some cd)
    (hruri : req.redirect_uri = some r) (hrne : r ≠ "")
    (hdiff : cd.redirect_uri ≠ r) :
    ∃ e : HttpErr, (handle_token_request env now c req).1 = .error e ∧
      e.statusCode = 400 ∧
      (e.detail = "Client ID mismatch" ∨ e.detail = "Redirect URI mismatch") := by
  rw [token_request_dispatch_authcode env now c req app happ hg]
  have hcons := consume_auth_code_found c code cd hne hget
  by_cases hcl : (cd.client_id == req.client_id) = true
  · refine ⟨⟨400, "Redirect URI mismatch"⟩, ?_, rfl, Or.inr rfl⟩
    simp [handle_authorization_code_grant, optTruthy, hcode, hne, hcons, hcl,
      hruri, hrne, hdiff]
  · refine ⟨⟨400, "Client ID mismatch"⟩, ?_, rfl, Or.inl rfl⟩
    simp [handle_authorization_code_grant, optTruthy, hcode, hne, hcons, hcl]

/-- Witness for C7: a code issued for https://app.example/cb redeemed with
https://other.example/cb. -/
theorem redirect_uri_binding_witness :
    ∃ e : HttpErr, (handle_token_request demoEnv 1000
      ⟨true, [("auth_code:code2", ⟨"u1", "c1", "https://app.example/cb", "openid"⟩)]⟩
      ⟨"authorization_code", some "code2", some "https://other.example/cb", "c1",
        some "secret1", none, none⟩).1 = .error e ∧
      e.statusCode = 400 ∧
      (e.detail = "Client ID mismatch" ∨ e.detail = "Redirect URI mismatch") :=
  redirect_uri_binding demoEnv 1000 _ _ demoApp "code2"
    ⟨"u1", "c1", "https://app.example/cb", "openid"⟩ "https://other.example/cb"
    (by decide) rfl rfl (by decide) rfl rfl (by decide) (by decide)

/-- C8: is_scope_allowed holds exactly when every whitespace-delimited token of
the requested scope appears in the client allow-list, the empty scope being
vacuously allowed; and the authorization handler rejects a truthy scope
failing this check with the 400 Invalid scope error (the invalid_scope
outcome), leaving the store untouched, so no code is created. -/
theorem scope_containment (env : Env) (c : Cache) (freshCode : String) :
    (∀ (app : Application) (scope : String),
      app.is_scope_allowed scope = true ↔
        ∀ t ∈ pySplit scope, t ∈ app.allowed_scopes) ∧
    (∀ app : Application, app.is_scope_allowed "" = true) ∧
    (∀ (req : AuthorizeRequest) (user_id : Option String) (app : Application) (s : String),
      get_application_by_client_id env.apps req.client_id = some app →
      app.is_active = true →
      app.supports_response_type req.response_type = true →
      app.is_redirect_uri_allowed req.redirect_uri = true →
      req.scope = some s → s ≠ "" →
      app.is_scope_allowed s = false →
      handle_authorization_request env c freshCode req user_id =
        (.httpError 400 "Invalid scope", c)) := by
  refine ⟨?_, ?_, ?_⟩
  · intro app scope
    by_cases h : scope = ""
    · subst h
      constructor
      · intro _ t ht
        simp [pySplit, pyWordsAux] at ht
      · intro _
        rfl
    · simp [Application.is_scope_allowed, h, List.all_eq_true]
  · intro app
    rfl
  · intro req user_id app s hfind hactive hresp hredir hscope hsne hfail
    simp [handle_authorization_request, hfind, hactive, hresp, hredir, optTruthy,
      hscope, hsne, hfail]

/-- Witness for C8: the demo client, whose allowed scopes are openid and
profile, asked for the scope email. -/
theorem scope_containment_witness :
    handle_authorization_request demoEnv emptyCache "f1"
      ⟨"code", "c1", "https://app.example/cb", some "email", some "xyz"⟩ (some "u1") =
      (.httpError 400 "Invalid scope", emptyCache) :=
  (scope_containment demoEnv emptyCache "f1").2.2
    ⟨"code", "c1", "https://app.example/cb", some "email", some "xyz"⟩ (some "u1")
    demoApp "email" (by decide) (by decide) (by decide) (by decide) rfl (by decide)
    (by decide)

/-- C9 counterexample: a state parameter supplied as the empty string is
dropped by the truthiness guard: the successful authorization redirect carries
no state parameter at all, so the supplied state is not echoed unchanged. -/
theorem state_echo_empty_string_dropped :
    authorize demoEnv emptyCache "f1" "https://sso.example/a" "code" "c1"
      "https://app.example/cb" (some "openid") (some "") (some "u1") =
      (.redirectClient "https://app.example/cb" [("code", "f1")],
        ⟨true, [("auth_code:f1", ⟨"u1", "c1", "https://app.example/cb", "openid"⟩)]⟩) := by
  decide

/-- Value of the state query parameter the endpoints emit: the original state
when it is a non-empty string, nothing otherwise. -/
def stClean : Option String → Option String
  | some s => if s == "" then none else some s
  | none => none

/-- The state fragment contributes exactly stClean to a parameter lookup. -/
theorem lookupParam_stateParams (st : Option String) :
    lookupParam (stateParams st) "state" = stClean st := by
  cases st with
  | none => rfl
  | some s =>
    by_cases h : (s == "") = true
    · simp [stateParams, stClean, lookupParam, h]
    · simp only [stateParams, stClean, h, Bool.false_eq_true, if_false]
      simp [lookupParam, List.find?_cons]

/-- A parameter under a key other than state does not affect the state
lookup. -/
theorem lookupParam_cons_ne (k1 v : String) (l : List (String × String))
    (h : (k1 == "state") = false) :
    lookupParam ((k1, v) :: l) "state" = lookupParam l "state" := by
  simp [lookupParam, List.find?_cons, h]

/-- A redirect outcome of the authorization handler echoes the request state
verbatim. -/
theorem authz_redirect_state_eq (env : Env) (c : Cache) (f : String)
    (req : AuthorizeRequest) (uid : Option String) (ruri2 code : String)
    (st2 : Option String) (c3 : Cache)
    (h : handle_authorization_request env c f req uid = (.redirect ruri2 code st2, c3)) :
    st2 = req.state := by
  unfold handle_authorization_request at h
  repeat' split at h
  all_goals simp_all

/-- A denial outcome of handle_consent echoes the posted state verbatim. -/
theorem consent_denied_state_eq (env : Env) (c : Cache) (f cid sc uid : String)
    (cv : Bool) (ruri : String) (st : Option String) (ruri2 e d : String)
    (st2 : Option String) (c3 : Cache)
    (h : handle_consent env c f cid sc uid cv ruri st = (.redirectDenied ruri2 e d st2, c3)) :
    st2 = st := by
  unfold handle_consent at h
  repeat' split at h
  all_goals simp_all

/-- A code outcome of handle_consent echoes the posted state verbatim. -/
theorem consent_code_state_eq (env : Env) (c : Cache) (f cid sc uid : String)
    (cv : Bool) (ruri : String) (st : Option String) (ruri2 code : String)
    (st2 : Option String) (c3 : Cache)
    (h : handle_consent env c f cid sc uid cv ruri st = (.redirectCode ruri2 code st2, c3)) :
    st2 = st := by
  unfold handle_consent at h
  repeat' split at h
  all_goals simp_all

/-- C9 amended: on both endpoints, every outcome that redirects to the client
carries the state parameter exactly when the original state was a non-empty
string, and then with its original value; a state that was omitted or supplied
as the empty string appears in no redirect outcome. -/
theorem state_echo_amended :
    (∀ (env : Env) (c : Cache) (f requrl rt cid ruri : String) (sc st uid : Option String)
        (b : String) (ps : List (String × String)) (c2 : Cache),
      authorize env c f requrl rt cid ruri sc st uid = (.redirectClient b ps, c2) →
      lookupParam ps "state" = stClean st) ∧
    (∀ (env : Env) (c : Cache) (f cid sc ruri : String) (st : Option String) (cv : Bool)
        (uid : Option String) (b : String) (ps : List (String × String)) (c2 : Cache),
      consent_endpoint env c f cid sc ruri st cv uid = (.redirectClient b ps, c2) →
      lookupParam ps "state" = stClean st) := by
  constructor
  · intro env c f requrl rt cid ruri sc st uid b ps c2 h
    simp only [authorize] at h
    rcases hres : handle_authorization_request env c f
      ⟨rt, cid, ruri, some (sc.getD "openid profile email"), st⟩ uid with ⟨res, c3⟩
    rw [hres] at h
    cases res with
    | httpError s d =>
      dsimp only at h
      rw [Prod.mk.injEq] at h
      obtain ⟨h1, -⟩ := h
      injection h1 with hb hps
      rw [← hps]
      simp only [List.cons_append, List.nil_append]
      rw [lookupParam_cons_ne _ _ _ (by decide), lookupParam_cons_ne _ _ _ (by decide)]
      exact lookupParam_stateParams st
    | loginRequired a1 a2 => simp at h
    | consentRequired a1 a2 a3 => simp at h
    | redirect ruri2 code st2 =>
      dsimp only at h
      have hst : st2 = st := by
        simpa using authz_redirect_state_eq env c f
          ⟨rt, cid, ruri, some (sc.getD "openid profile email"), st⟩ uid ruri2 code st2 c3 hres
      rw [Prod.mk.injEq] at h
      obtain ⟨h1, -⟩ := h
      injection h1 with hb hps
      rw [← hps]
      simp only [List.cons_append, List.nil_append]
      rw [lookupParam_cons_ne _ _ _ (by decide), lookupParam_stateParams, hst]
  · intro env c f cid sc ruri st cv uid b ps c2 h
    simp only [consent_endpoint] at h
    by_cases hu : optTruthy uid = true
    · simp only [hu, Bool.not_true, Bool.false_eq_true, if_false] at h
      rcases hres : handle_consent env c f cid sc (uid.getD "") cv ruri st with ⟨res, c3⟩
      rw [hres] at h
      cases res with
      | httpError s d =>
        dsimp only at h
        rw [Prod.mk.injEq] at h
        obtain ⟨h1, -⟩ := h
        injection h1 with hb hps
        rw [← hps]
        simp only [List.cons_append, List.nil_append]
        rw [lookupParam_cons_ne _ _ _ (by decide), lookupParam_cons_ne _ _ _ (by decide)]
        exact lookupParam_stateParams st
      | redirectDenied ruri2 e d st2 =>
        dsimp only at h
        have hst : st2 = st :=
          consent_denied_state_eq env c f cid sc (uid.getD "") cv ruri st ruri2 e d st2 c3 hres
        rw [Prod.mk.injEq] at h
        obtain ⟨h1, -⟩ := h
        injection h1 with hb hps
        rw [← hps]
        simp only [List.cons_append, List.nil_append]
        rw [lookupParam_cons_ne _ _ _ (by decide), lookupParam_cons_ne _ _ _ (by decide),
          lookupParam_stateParams, hst]
      | redirectCode ruri2 code st2 =>
        dsimp only at h
        have hst : st2 = st :=
          consent_code_state_eq env c f cid sc (uid.getD "") cv ruri st ruri2 code st2 c3 hres
        rw [Prod.mk.injEq] at h
        obtain ⟨h1, -⟩ := h
        injection h1 with hb hps
        rw [← hps]
        simp only [List.cons_append, List.nil_append]
        rw [lookupParam_cons_ne _ _ _ (by decide), lookupParam_stateParams, hst]
    · have hu2 : optTruthy uid = false := by
        cases hx : optTruthy uid
        · rfl
        · exact absurd hx hu
      rw [hu2] at h
      simp at h

/-- Witness for C9 amended at a successful authorization with a non-empty
state. -/
theorem state_echo_amended_witness :
    lookupParam [("code", "f1"), ("state", "xyz123")] "state" = stClean (some "xyz123") :=
  state_echo_amended.1 demoEnv emptyCache "f1" "https://sso.example/a" "code" "c1"
    "https://app.example/cb" (some "openid") (some "xyz123") (some "u1")
    "https://app.example/cb" [("code", "f1"), ("state", "xyz123")]
    ⟨true, [("auth_code:f1", ⟨"u1", "c1", "https://app.example/cb", "openid"⟩)]⟩
    (by decide)

/-- Reading a key back from a reachable store right after setex returns the
stored value. -/
theorem setex_get_self (c : Cache) (k : String) (ttl : Nat) (v : AuthCodeData)
    (h : c.available = true) : ((c.setex k ttl v).2).get k = some v := by
  simp [Cache.setex, Cache.get, h, List.find?_append, find?_filter_self]

/-- A registered client whose allow-list contains only the scope foo: the
default scope openid profile email is not allowed for it. -/
def strictApp : Application :=
  ⟨"Strict App", none, "c2", "secret2", ["https://app2.example/cb"], ["foo"],
    ["authorization_code"], ["code"], true, true, false, 3600⟩

/-- Environment holding the strict client and the demo user. -/
def strictEnv : Env := ⟨demoSettings, [strictApp], [demoUser]⟩

/-- C10: when the authorization handler receives a falsy scope the containment
check is skipped and the code is stored with the substituted scope string
openid profile email, for every client, including one whose allow-list does
not contain these scopes (no hypothesis on allowed_scopes is needed); tokens
minted from a code carry exactly the stored scope, both in the response and in
the access token scope claim; and the authorize endpoint treats an omitted
scope query parameter identically to the literal openid profile email. -/
theorem default_scope_unvalidated :
    (∀ (env : Env) (c : Cache) (f : String) (req : AuthorizeRequest)
        (user_id : Option String) (app : Application) (user : User),
      get_application_by_client_id env.apps req.client_id = some app →
      app.is_active = true →
      app.supports_response_type req.response_type = true →
      app.is_redirect_uri_allowed req.redirect_uri = true →
      optTruthy req.scope = false →
      optTruthy user_id = true →
      get_user_by_id env.users (user_id.getD "") = some user →
      user.is_active = true →
      app.require_consent = false →
      handle_authorization_request env c f req user_id =
        (.redirect req.redirect_uri f req.state,
          (create_auth_code c f user.id req.client_id req.redirect_uri
            "openid profile email").2) ∧
      (c.available = true →
        ((create_auth_code c f user.id req.client_id req.redirect_uri
          "openid profile email").2).get ("auth_code:" ++ f) =
          some ⟨user.id, req.client_id, req.redirect_uri, "openid profile email"⟩)) ∧
    (∀ (env : Env) (now : Int) (c : Cache) (req : TokenRequest) (app : Application)
        (code : String) (cd : AuthCodeData) (user : User),
      validate_client_credentials env.apps req.client_id req.client_secret = some app →
      req.grant_type = "authorization_code" →
      req.code = some code → code ≠ "" →
      c.get ("auth_code:" ++ code) = some cd →
      cd.client_id = req.client_id →
      (optTruthy req.redirect_uri && !(cd.redirect_uri == req.redirect_uri.getD "")) = false →
      get_user_by_id env.users cd.user_id = some user →
      user.is_active = true →
      ∃ resp : TokenResponse, (handle_token_request env now c req).1 = .ok resp ∧
        resp.scope = some cd.scope ∧
        dictGet resp.access_token.payloadOf "scope" = some (.str cd.scope)) ∧
    (∀ (env : Env) (c : Cache) (f requrl rt cid ruri : String) (st uid : Option String),
      authorize env c f requrl rt cid ruri none st uid =
        authorize env c f requrl rt cid ruri (some "openid profile email") st uid) := by
  refine ⟨?_, ?_, ?_⟩
  · intro env c f req user_id app user hfind hactive hresp hredir hscope huid huser
      huactive hconsent
    constructor
    · simp [handle_authorization_request, create_auth_code, hfind, hactive, hresp,
        hredir, hscope, huid, huser, huactive, hconsent]
    · intro hav
      exact setex_get_self c ("auth_code:" ++ f) 600
        ⟨user.id, req.client_id, req.redirect_uri, "openid profile email"⟩ hav
  · intro env now c req app code cd user happ hg hcode hne hget hclient hredir huser hactive
    rw [token_request_dispatch_authcode env now c req app happ hg,
      authcode_grant_ok env now c req app code cd user hcode hne hget hclient hredir
        huser hactive]
    refine ⟨_, rfl, rfl, ?_⟩
    simp only [create_access_token, create_jwt, JwtInput.payloadOf]
    rw [dictGet_set_ne _ _ _ _ (by decide), dictGet_set_ne _ _ _ _ (by decide),
      dictGet_set_ne _ _ _ _ (by decide)]
    rfl
  · intro env c f requrl rt cid ruri st uid
    rfl

/-- Witness for C10: the strict client, which does not allow any of the
default scopes, still gets a code stored with scope openid profile email when
the request scope is absent. -/
theorem default_scope_unvalidated_witness :
    strictApp.is_scope_allowed "openid profile email" = false ∧
    handle_authorization_request strictEnv emptyCache "f2"
      ⟨"code", "c2", "https://app2.example/cb", none, none⟩ (some "u1") =
      (.redirect "https://app2.example/cb" "f2" none,
        (create_auth_code emptyCache "f2" "u1" "c2" "https://app2.example/cb"
          "openid profile email").2) ∧
    ((create_auth_code emptyCache "f2" "u1" "c2" "https://app2.example/cb"
      "openid profile email").2).get ("auth_code:" ++ "f2") =
      some ⟨"u1", "c2", "https://app2.example/cb", "openid profile email"⟩ :=
  ⟨by decide,
    (default_scope_unvalidated.1 strictEnv emptyCache "f2"
      ⟨"code", "c2", "https://app2.example/cb", none, none⟩ (some "u1") strictApp demoUser
      (by decide) (by decide) (by decide) (by decide) rfl (by decide) (by decide)
      (by decide) (by decide)).1,
    (default_scope_unvalidated.1 strictEnv emptyCache "f2"
      ⟨"code", "c2", "https://app2.example/cb", none, none⟩ (some "u1") strictApp demoUser
      (by decide) (by decide) (by decide) (by decide) rfl (by decide) (by decide)
      (by decide) (by decide)).2 (by decide)⟩

end SSOAuth


